import Mathlib

/-!
Shallow embedding of `src/main.py` (Aretrails2Wikidata): the `TrailItem`
record model, the `AreTrailsData` collection with its filtered views, and
the CSV exporter.  Python values stored in the loosely typed `content` /
`properties` fields are modelled by a JSON value type `JValue`; Python
exceptions raised by the accessors are modelled by `Except PyError`.
Numeric values are modelled by exact rationals (ℚ); `float` arithmetic is
treated as exact rational arithmetic.
-/

/-- Python exception kinds raised by the code paths modelled here. -/
inductive PyError where
  | valueError (msg : String)
  | keyError (key : String)
  | attributeError
  | typeError
deriving DecidableEq, Repr

/-- JSON-like value, the shape of the loosely structured `content`,
`properties` and raw `data` payloads (`Any` in the source). -/
inductive JValue where
  | null
  | bool (b : Bool)
  | num (q : ℚ)
  | str (s : String)
  | arr (elems : List JValue)
  | obj (fields : List (String × JValue))

/-- Lookup of a key in a JSON object's field list (Python dict lookup). -/
def jLookup : List (String × JValue) → String → Option JValue
  | [], _ => none
  | (k, v) :: rest, key => if k = key then some v else jLookup rest key

/-- Python truthiness of a JSON value (`if x:`). -/
def JValue.truthy : JValue → Bool
  | .null => false
  | .bool b => b
  | .num q => if q = 0 then false else true
  | .str s => if s = "" then false else true
  | .arr elems => !elems.isEmpty
  | .obj fields => !fields.isEmpty

/-- Python `x.get(key, default)`: defaulting dict lookup; raises
`AttributeError` when `x` is not a dict. -/
def JValue.getD (v : JValue) (key : String) (dflt : JValue) : Except PyError JValue :=
  match v with
  | .obj fields => .ok ((jLookup fields key).getD dflt)
  | _ => .error .attributeError

/-- Python `x[key]` subscription: raises `KeyError` when the key is absent
and `TypeError` when `x` is not a dict. -/
def JValue.sub (v : JValue) (key : String) : Except PyError JValue :=
  match v with
  | .obj fields =>
    match jLookup fields key with
    | some x => .ok x
    | none => .error (.keyError key)
  | _ => .error .typeError

/-- Python `float(x)` on the value kinds the program feeds it: numbers are
exact, booleans coerce to 0/1, anything else is modelled as a `TypeError`
(parsing of numeric strings is not modelled; no claim depends on it). -/
def pyFloat : JValue → Except PyError ℚ
  | .num q => .ok q
  | .bool true => .ok 1
  | .bool false => .ok 0
  | _ => .error .typeError

/-- Python `int(x)` on a float: truncation toward zero. -/
def ratTrunc (q : ℚ) : ℤ :=
  if 0 ≤ q then Rat.floor q else Rat.ceil q

/-- Rounding to the nearest integer with ties to even, as Python's
built-in `round` does. -/
def roundHalfEven (q : ℚ) : ℤ :=
  if q - (Rat.floor q : ℚ) < 1/2 then Rat.floor q
  else if 1/2 < q - (Rat.floor q : ℚ) then Rat.floor q + 1
  else if Rat.floor q % 2 = 0 then Rat.floor q else Rat.floor q + 1

/-- Python `round(x, 1)`: one decimal place, ties to even. -/
def pyRound1 (q : ℚ) : ℚ := ((roundHalfEven (q * 10) : ℤ) : ℚ) / 10

/-- Whether the first character list starts the second one. -/
def listHasPre : List Char → List Char → Bool
  | [], _ => true
  | _ :: _, [] => false
  | a :: as, b :: bs => (a = b : Bool) && listHasPre as bs

/-- Whether the first character list occurs contiguously in the second. -/
def listHasSub (needle : List Char) : List Char → Bool
  | [] => needle.isEmpty
  | b :: bs => listHasPre needle (b :: bs) || listHasSub needle bs

/-- Python `needle in hay` on strings: contiguous substring test. -/
def pyInStr (needle hay : String) : Bool :=
  listHasSub needle.toList hay.toList

/-- Python `x == {}`: true exactly for the empty dict. -/
def isEmptyDict : JValue → Bool
  | .obj [] => true
  | _ => false

/-- Whether an `Except` result is an error (a raised exception). -/
def isErr {α : Type} : Except PyError α → Bool
  | .error _ => true
  | .ok _ => false

/-- The success value of an `Except` result, when there is one. -/
def exOpt {α : Type} : Except PyError α → Option α
  | .error _ => none
  | .ok a => some a

/-- Evaluation of `[f x for x in xs]`: first exception aborts the whole
comprehension, otherwise the results are collected in source order. -/
def exceptMapList {α β : Type} (f : α → Except PyError β) : List α → Except PyError (List β)
  | [] => .ok []
  | x :: xs =>
    match f x with
    | .error e => .error e
    | .ok b =>
      match exceptMapList f xs with
      | .error e => .error e
      | .ok bs => .ok (b :: bs)

/-- Evaluation of `[x for x in xs if p x]`: first exception raised by the
predicate aborts the comprehension, otherwise elements with a true
predicate are kept in source order. -/
def exceptFilter {α : Type} (p : α → Except PyError Bool) : List α → Except PyError (List α)
  | [] => .ok []
  | x :: xs =>
    match p x with
    | .error e => .error e
    | .ok b =>
      match exceptFilter p xs with
      | .error e => .error e
      | .ok r => .ok (if b then x :: r else r)

/-- The successfully constructed results of `f` over `xs`, in source
order (used to state what a fully successful run produces). -/
def okList {α β : Type} (f : α → Except PyError β) (xs : List α) : List β :=
  xs.filterMap (fun x => exOpt (f x))

/-- The `TrailItem` pydantic model: `id`, `objectClass`, `networkId` are
required strings; `content` and `properties` are `Any` (default `None`,
i.e. `JValue.null`). -/
structure TrailItem where
  id : String
  objectClass : String
  content : JValue
  properties : JValue
  networkId : String

/-- `TrailItem.network_id`: returns `self.networkId`. -/
def TrailItem.network_id (t : TrailItem) : String := t.networkId

/-- `TrailItem.activity`: `if self.content: return self.content.get("activity", {})
else: raise ValueError("no self.content")`. -/
def TrailItem.activity (t : TrailItem) : Except PyError JValue :=
  if t.content.truthy then t.content.getD "activity" (JValue.obj [])
  else .error (.valueError "no self.content")

/-- `TrailItem.activity_key`: `if self.activity: return self.activity.get("key", "")
else: return ""`. -/
def TrailItem.activity_key (t : TrailItem) : Except PyError JValue :=
  match t.activity with
  | .error e => .error e
  | .ok a => if a.truthy then a.getD "key" (JValue.str "") else .ok (JValue.str "")

/-- `TrailItem.has_running_activity`: `"running" in self.activity_key`;
Python `in` raises `TypeError` on a non-string. -/
def TrailItem.has_running_activity (t : TrailItem) : Except PyError Bool :=
  match t.activity_key with
  | .error e => .error e
  | .ok (.str s) => .ok (pyInStr "running" s)
  | .ok _ => .error .typeError

/-- `TrailItem.has_riding_activity`: `"riding" in self.activity_key`. -/
def TrailItem.has_riding_activity (t : TrailItem) : Except PyError Bool :=
  match t.activity_key with
  | .error e => .error e
  | .ok (.str s) => .ok (pyInStr "riding" s)
  | .ok _ => .error .typeError

/-- `TrailItem.has_hike_activity`: `"hiking" in self.activity_key`. -/
def TrailItem.has_hike_activity (t : TrailItem) : Except PyError Bool :=
  match t.activity_key with
  | .error e => .error e
  | .ok (.str s) => .ok (pyInStr "hiking" s)
  | .ok _ => .error .typeError

/-- `TrailItem.has_bike_activity`: the source condition is
`if "bicycle" or "gravel" in self.activity_key:`.  Python parses this as
`("bicycle") or ("gravel" in self.activity_key)` and the non-empty string
literal `"bicycle"` is truthy, so `or` short-circuits: `self.activity_key`
is never evaluated and the branch is always taken.  The dead right-hand
side is kept here for fidelity. -/
def TrailItem.has_bike_activity (t : TrailItem) : Except PyError Bool :=
  if (JValue.str "bicycle").truthy then .ok true
  else
    match t.activity_key with
    | .error e => .error e
    | .ok (.str s) => .ok (pyInStr "gravel" s)
    | .ok _ => .error .typeError

/-- `TrailItem.is_multitrail`: `return self.properties["isMultiTrail"]`. -/
def TrailItem.is_multitrail (t : TrailItem) : Except PyError JValue :=
  t.properties.sub "isMultiTrail"

/-- `TrailItem.url`: fixed URL template embedding `id`. -/
def TrailItem.url (t : TrailItem) : String :=
  "https://www.aretrails.com/trail/" ++ t.id

/-- `TrailItem.title`: `return self.content["title"]`. -/
def TrailItem.title (t : TrailItem) : Except PyError JValue :=
  t.content.sub "title"

/-- `TrailItem.length`: `if self.properties["trailDistanceMeter"]:
return int(float(...)) else: return 0`.  The subscription raises
`KeyError` when the key is absent. -/
def TrailItem.length (t : TrailItem) : Except PyError ℤ :=
  match t.properties.sub "trailDistanceMeter" with
  | .error e => .error e
  | .ok v =>
    if v.truthy then
      match pyFloat v with
      | .error e => .error e
      | .ok q => .ok (ratTrunc q)
    else .ok 0

/-- `TrailItem.length_in_km`: `if self.properties["trailDistanceMeter"]:
return round(float(...) / 1000, 1) else: return 0`. -/
def TrailItem.length_in_km (t : TrailItem) : Except PyError ℚ :=
  match t.properties.sub "trailDistanceMeter" with
  | .error e => .error e
  | .ok v =>
    if v.truthy then
      match pyFloat v with
      | .error e => .error e
      | .ok q => .ok (pyRound1 (q / 1000))
    else .ok 0

/-- `TrailItem.number`: `return self.properties.get("trailNumber", "")`. -/
def TrailItem.number (t : TrailItem) : Except PyError JValue :=
  t.properties.getD "trailNumber" (JValue.str "")

/-- `TrailItem.class_`: alias for `objectClass`. -/
def TrailItem.class_ (t : TrailItem) : String := t.objectClass

/-- `TrailItem.gpx_url`: fixed URL template embedding `id` and
`network_id`. -/
def TrailItem.gpx_url (t : TrailItem) : String :=
  "https://func-gaiaplaces-aretrails.azurewebsites.net/api/ContentItem/geo/"
    ++ t.id ++ "/gpx?networkId=" ++ t.network_id ++ "&draft=0&code="

/-- Construction `TrailItem(**item)` under pydantic v1 validation: the
argument must be a dict; `id`, `objectClass`, `networkId` are required
`str` fields (a missing or non-string value is a validation error);
`content` and `properties` are `Any` and default to `None` when absent;
extra keys are ignored. -/
def TrailItem.construct (v : JValue) : Except PyError TrailItem :=
  match v with
  | .obj fs =>
    match jLookup fs "id", jLookup fs "objectClass", jLookup fs "networkId" with
    | some (.str i), some (.str oc), some (.str nid) =>
      .ok { id := i, objectClass := oc,
            content := (jLookup fs "content").getD .null,
            properties := (jLookup fs "properties").getD .null,
            networkId := nid }
    | _, _, _ => .error (.valueError "validation error for TrailItem")
  | _ => .error .typeError

/-- The `AreTrailsData` model: the parsed `items` list (initially empty)
and the raw JSON payload `data` (Any, default `None`). -/
structure AreTrailsData where
  items : List TrailItem := []
  data : JValue := .null

/-- `AreTrailsData.parse_items`:
`self.items = [TrailItem(**item) for item in self.data["items"]]`.
An exception anywhere (subscription, iteration over a non-list, or a
single failed construction) propagates before the assignment runs, so on
error the state is unchanged; on success the whole list is assigned. -/
def AreTrailsData.parse_items (d : AreTrailsData) : Except PyError AreTrailsData :=
  match d.data.sub "items" with
  | .error e => .error e
  | .ok (.arr xs) =>
    match exceptMapList TrailItem.construct xs with
    | .error e => .error e
    | .ok ts => .ok { d with items := ts }
  | .ok _ => .error .typeError

/-- `AreTrailsData.trails`: `[item for item in self.items if item.class_ == "trail"]`.
The predicate cannot raise. -/
def AreTrailsData.trails (d : AreTrailsData) : List TrailItem :=
  d.items.filter (fun item => item.class_ == "trail")

/-- Predicate of `multitrails`: `item.class_ == "trail" and item.is_multitrail`
with Python short-circuit `and`; the truthiness of the `isMultiTrail`
value is what the comprehension tests. -/
def multitrailP (item : TrailItem) : Except PyError Bool :=
  if item.class_ == "trail" then Except.map JValue.truthy item.is_multitrail
  else .ok false

/-- `AreTrailsData.multitrails`. -/
def AreTrailsData.multitrails (d : AreTrailsData) : Except PyError (List TrailItem) :=
  exceptFilter multitrailP d.items

/-- Predicate of `riding_trails`. -/
def ridingP (item : TrailItem) : Except PyError Bool :=
  if item.class_ == "trail" then item.has_riding_activity else .ok false

/-- `AreTrailsData.riding_trails`. -/
def AreTrailsData.riding_trails (d : AreTrailsData) : Except PyError (List TrailItem) :=
  exceptFilter ridingP d.items

/-- Predicate of `bicycle_trails`. -/
def bicycleP (item : TrailItem) : Except PyError Bool :=
  if item.class_ == "trail" then item.has_bike_activity else .ok false

/-- `AreTrailsData.bicycle_trails`. -/
def AreTrailsData.bicycle_trails (d : AreTrailsData) : Except PyError (List TrailItem) :=
  exceptFilter bicycleP d.items

/-- Predicate of `hiking_trails`. -/
def hikingP (item : TrailItem) : Except PyError Bool :=
  if item.class_ == "trail" then item.has_hike_activity else .ok false

/-- `AreTrailsData.hiking_trails`. -/
def AreTrailsData.hiking_trails (d : AreTrailsData) : Except PyError (List TrailItem) :=
  exceptFilter hikingP d.items

/-- Predicate of `running_trails`. -/
def runningP (item : TrailItem) : Except PyError Bool :=
  if item.class_ == "trail" then item.has_running_activity else .ok false

/-- `AreTrailsData.running_trails`. -/
def AreTrailsData.running_trails (d : AreTrailsData) : Except PyError (List TrailItem) :=
  exceptFilter runningP d.items

/-- Predicate of `trails_with_activity`: `item.class_ == "trail" and item.activity != {}`. -/
def withActivityP (item : TrailItem) : Except PyError Bool :=
  if item.class_ == "trail" then Except.map (fun a => !isEmptyDict a) item.activity
  else .ok false

/-- `AreTrailsData.trails_with_activity`. -/
def AreTrailsData.trails_with_activity (d : AreTrailsData) : Except PyError (List TrailItem) :=
  exceptFilter withActivityP d.items

/-- Predicate of `trails_without_activity`: `item.class_ == "trail" and item.activity == {}`. -/
def withoutActivityP (item : TrailItem) : Except PyError Bool :=
  if item.class_ == "trail" then Except.map isEmptyDict item.activity
  else .ok false

/-- `AreTrailsData.trails_without_activity`. -/
def AreTrailsData.trails_without_activity (d : AreTrailsData) : Except PyError (List TrailItem) :=
  exceptFilter withoutActivityP d.items

/-- Python short-circuit `or` on boolean-returning expressions that may
raise: the right side is only reached when the left is false. -/
def orE (a b : Except PyError Bool) : Except PyError Bool :=
  match a with
  | .error e => .error e
  | .ok true => .ok true
  | .ok false => b

/-- Predicate of `trails_with_unsupported_activity`:
`item.class_ == "trail" and not (item.has_hike_activity or
item.has_riding_activity or item.has_bike_activity or
item.has_running_activity)`, with Python evaluation order and
short-circuiting. -/
def unsupportedP (item : TrailItem) : Except PyError Bool :=
  if item.class_ == "trail" then
    Except.map (fun b => !b)
      (orE item.has_hike_activity
        (orE item.has_riding_activity
          (orE item.has_bike_activity item.has_running_activity)))
  else .ok false

/-- `AreTrailsData.trails_with_unsupported_activity`. -/
def AreTrailsData.trails_with_unsupported_activity (d : AreTrailsData) :
    Except PyError (List TrailItem) :=
  exceptFilter unsupportedP d.items

/-- Rendering of a cell value the way the `csv` module writes it:
strings verbatim, `None` as the empty string, booleans as `True`/`False`,
integers as decimal digits.  (Non-integer numbers and nested containers
are given a simplified rendering; no claim inspects them.) -/
def csvStr : JValue → String
  | .str s => s
  | .null => ""
  | .bool true => "True"
  | .bool false => "False"
  | .num q => if q.den = 1 then toString q.num else toString q.num ++ "/" ++ toString q.den
  | .arr _ => "<list>"
  | .obj _ => "<dict>"

/-- The fixed CSV header row written by `writeheader()`. -/
def headerRow : List String :=
  ["title", "number", "activity_key", "multitrail", "length", "url", "gpx"]

/-- One CSV data row for a trail, in `fieldnames` order, as built by the
dict literal passed to `writerow`; any accessor exception propagates. -/
def TrailItem.csvRow (t : TrailItem) : Except PyError (List String) :=
  match t.title with
  | .error e => .error e
  | .ok ti =>
    match t.number with
    | .error e => .error e
    | .ok nu =>
      match t.activity_key with
      | .error e => .error e
      | .ok ak =>
        match t.is_multitrail with
        | .error e => .error e
        | .ok mt =>
          match t.length with
          | .error e => .error e
          | .ok len =>
            .ok [csvStr ti, csvStr nu, csvStr ak, csvStr mt, toString len,
                 t.url, t.gpx_url]

/-- The data rows written by the export loop: rows are written one by one
until the first exception (whose kind is returned alongside the rows
already written). -/
def writeRows : List TrailItem → List (List String) × Option PyError
  | [] => ([], none)
  | t :: ts =>
    match t.csvRow with
    | .error e => ([], some e)
    | .ok r =>
      match writeRows ts with
      | (rs, err) => (r :: rs, err)

/-- `AreTrailsData.export_trails_to_csv`: writes the header row, then one
row per item of `trails` in source order; the result is the full list of
written rows together with the exception that aborted the loop, if any. -/
def AreTrailsData.export_trails_to_csv (d : AreTrailsData) :
    List (List String) × Option PyError :=
  match writeRows d.trails with
  | (rs, err) => (headerRow :: rs, err)

/-- A trail-classed item with the given `content` and `properties`. -/
def mkTrail (c p : JValue) : TrailItem :=
  { id := "1", objectClass := "trail", content := c, properties := p, networkId := "n" }

/-- Concrete trail with a hiking activity, used in witnesses. -/
def itemHike : TrailItem :=
  mkTrail
    (.obj [("title", .str "Loop A"),
           ("activity", .obj [("key", .str "hiking-easy"), ("value", .str "Easy")])])
    (.obj [("isMultiTrail", .bool true), ("trailDistanceMeter", .num 3500)])

/-- Concrete trail whose content lacks the `activity` key. -/
def itemPlain : TrailItem :=
  mkTrail
    (.obj [("title", .str "Loop B, with comma")])
    (.obj [("isMultiTrail", .bool false), ("trailDistanceMeter", .num 0),
           ("trailNumber", .str "12")])

/-- Concrete non-trail item (all payload fields `None`). -/
def itemOther : TrailItem :=
  { id := "0", objectClass := "poi", content := .null, properties := .null, networkId := "n" }

/-- Concrete dataset mixing trail and non-trail items. -/
def demoData : AreTrailsData :=
  { items := [itemHike, itemOther, itemPlain], data := .null }

/-- Concrete item constructed with `content=None`. -/
def itemNoContent : TrailItem := mkTrail .null .null

/-- Concrete trail whose properties lack `trailDistanceMeter`. -/
def itemNoDist : TrailItem := mkTrail (.obj [("title", .str "T")]) (.obj [])

/-- Concrete trail with a negative non-integer `trailDistanceMeter`
(the rational -3/2). -/
def itemNegDist : TrailItem :=
  mkTrail (.obj [("title", .str "T")]) (.obj [("trailDistanceMeter", .num (mkRat (-3) 2))])

/-- Concrete trail whose activity mapping is non-empty but has no `key`. -/
def itemKeyless : TrailItem :=
  mkTrail (.obj [("activity", .obj [("value", .str "DH")])]) .null

/-- Concrete trail whose `activity` value inside content is a non-empty
string rather than a mapping. -/
def itemStrActivity : TrailItem :=
  mkTrail (.obj [("activity", .str "x")]) .null

/-- Concrete dataset holding only `itemStrActivity`. -/
def strActivityData : AreTrailsData :=
  { items := [itemStrActivity], data := .null }

/-- Raw JSON object that validates as a `TrailItem`. -/
def rawGoodItem : JValue :=
  .obj [("id", .str "7"), ("objectClass", .str "trail"), ("networkId", .str "n"),
        ("content", .obj [("title", .str "T")]), ("properties", .obj [])]

/-- Dataset whose raw payload has one well-formed item. -/
def goodParseData : AreTrailsData :=
  { items := [], data := .obj [("items", .arr [rawGoodItem])] }

/-- Dataset whose raw payload has a good item followed by an item missing
every required field. -/
def badParseData : AreTrailsData :=
  { items := [], data := .obj [("items", .arr [rawGoodItem, .obj []])] }

theorem isErr_eq_false_iff {α : Type} (e : Except PyError α) :
    isErr e = false ↔ ∃ a, e = Except.ok a := by
  cases e with
  | error err => simp [isErr]
  | ok a => simp [isErr]

theorem exOpt_ok {α : Type} (a : α) : exOpt (Except.ok a : Except PyError α) = some a := rfl

theorem except_map_eq_ok {α β : Type} (f : α → β) (e : Except PyError α) (b : β)
    (h : Except.map f e = Except.ok b) : ∃ a, e = Except.ok a ∧ f a = b := by
  cases e with
  | error err => simp [Except.map] at h
  | ok a =>
    refine ⟨a, rfl, ?_⟩
    simpa [Except.map] using h

theorem exceptFilter_mem {α : Type} (p : α → Except PyError Bool) :
    ∀ (xs l : List α), exceptFilter p xs = Except.ok l →
      ∀ x ∈ l, x ∈ xs ∧ p x = Except.ok true := by
  intro xs
  induction xs with
  | nil =>
    intro l h x hx
    simp only [exceptFilter] at h
    injection h with h'
    subst h'
    cases hx
  | cons a as ih =>
    intro l h x hx
    simp only [exceptFilter] at h
    cases hp : p a with
    | error e => rw [hp] at h; exact Except.noConfusion h
    | ok b =>
      rw [hp] at h
      cases hf : exceptFilter p as with
      | error e => rw [hf] at h; exact Except.noConfusion h
      | ok r =>
        rw [hf] at h
        injection h with h'
        subst h'
        cases b with
        | true =>
          have hx2 : x ∈ a :: r := by simpa using hx
          rcases List.mem_cons.mp hx2 with h3 | h3
          · subst h3
            exact ⟨List.mem_cons_self _ _, hp⟩
          · obtain ⟨h1, h2⟩ := ih r hf x h3
            exact ⟨List.mem_cons_of_mem a h1, h2⟩
        | false =>
          have hx2 : x ∈ r := by simpa using hx
          obtain ⟨h1, h2⟩ := ih r hf x hx2
          exact ⟨List.mem_cons_of_mem a h1, h2⟩

theorem exceptFilter_sublist {α : Type} (p : α → Except PyError Bool) :
    ∀ (xs l : List α), exceptFilter p xs = Except.ok l → l.Sublist xs := by
  intro xs
  induction xs with
  | nil =>
    intro l h
    simp only [exceptFilter] at h
    injection h with h'
    subst h'
    exact List.Sublist.refl []
  | cons a as ih =>
    intro l h
    simp only [exceptFilter] at h
    cases hp : p a with
    | error e => rw [hp] at h; exact Except.noConfusion h
    | ok b =>
      rw [hp] at h
      cases hf : exceptFilter p as with
      | error e => rw [hf] at h; exact Except.noConfusion h
      | ok r =>
        rw [hf] at h
        injection h with h'
        subst h'
        cases b with
        | true => exact List.Sublist.cons₂ a (ih r hf)
        | false => exact List.Sublist.cons a (ih r hf)

theorem exceptFilter_sublist_filter {α : Type} (p : α → Except PyError Bool) (q : α → Bool)
    (hq : ∀ x, p x = Except.ok true → q x = true) :
    ∀ (xs l : List α), exceptFilter p xs = Except.ok l → l.Sublist (xs.filter q) := by
  intro xs
  induction xs with
  | nil =>
    intro l h
    simp only [exceptFilter] at h
    injection h with h'
    subst h'
    exact List.Sublist.refl _
  | cons a as ih =>
    intro l h
    simp only [exceptFilter] at h
    cases hp : p a with
    | error e => rw [hp] at h; exact Except.noConfusion h
    | ok b =>
      rw [hp] at h
      cases hf : exceptFilter p as with
      | error e => rw [hf] at h; exact Except.noConfusion h
      | ok r =>
        rw [hf] at h
        injection h with h'
        subst h'
        cases b with
        | true =>
          have hqa : q a = true := hq a hp
          have h2 : List.filter q (a :: as) = a :: List.filter q as := by
            simp [List.filter_cons, hqa]
          rw [h2]
          exact List.Sublist.cons₂ a (ih r hf)
        | false =>
          refine List.Sublist.trans (ih r hf) ?_
          cases hqa : q a with
          | true =>
            have h2 : List.filter q (a :: as) = a :: List.filter q as := by
              simp [List.filter_cons, hqa]
            rw [h2]
            exact List.Sublist.cons a (List.Sublist.refl _)
          | false =>
            have h2 : List.filter q (a :: as) = List.filter q as := by
              simp [List.filter_cons, hqa]
            rw [h2]

theorem exceptFilter_total {α : Type} (p : α → Except PyError Bool) :
    ∀ (xs : List α), (∀ x ∈ xs, ∃ b, p x = Except.ok b) →
      ∃ l, exceptFilter p xs = Except.ok l ∧
        ∀ y, y ∈ l ↔ y ∈ xs ∧ p y = Except.ok true := by
  intro xs
  induction xs with
  | nil =>
    intro _
    exact ⟨[], rfl, by simp⟩
  | cons a as ih =>
    intro h
    obtain ⟨b, hb⟩ := h a (List.mem_cons_self a as)
    obtain ⟨l', hl', hmem⟩ := ih (fun x hx => h x (List.mem_cons_of_mem a hx))
    refine ⟨if b then a :: l' else l', ?_, ?_⟩
    · simp only [exceptFilter, hb, hl']
    · intro y
      cases b with
      | true =>
        show y ∈ a :: l' ↔ y ∈ a :: as ∧ p y = Except.ok true
        constructor
        · intro hy
          rcases List.mem_cons.mp hy with h3 | h3
          · subst h3
            exact ⟨List.mem_cons_self _ _, hb⟩
          · obtain ⟨h1, h2⟩ := (hmem y).mp h3
            exact ⟨List.mem_cons_of_mem a h1, h2⟩
        · rintro ⟨hy, hpy⟩
          rcases List.mem_cons.mp hy with h3 | h3
          · subst h3
            exact List.mem_cons_self _ _
          · exact List.mem_cons_of_mem a ((hmem y).mpr ⟨h3, hpy⟩)
      | false =>
        show y ∈ l' ↔ y ∈ a :: as ∧ p y = Except.ok true
        constructor
        · intro hy
          obtain ⟨h1, h2⟩ := (hmem y).mp hy
          exact ⟨List.mem_cons_of_mem a h1, h2⟩
        · rintro ⟨hy, hpy⟩
          rcases List.mem_cons.mp hy with h3 | h3
          · subst h3
            rw [hb] at hpy
            injection hpy with h''
            exact Bool.noConfusion h''
          · exact (hmem y).mpr ⟨h3, hpy⟩

theorem exceptFilter_all_false {α : Type} (p : α → Except PyError Bool) :
    ∀ (xs : List α), (∀ x ∈ xs, p x = Except.ok false) →
      exceptFilter p xs = Except.ok [] := by
  intro xs
  induction xs with
  | nil => intro _; rfl
  | cons a as ih =>
    intro h
    have ha := h a (List.mem_cons_self a as)
    have has := ih (fun x hx => h x (List.mem_cons_of_mem a hx))
    simp only [exceptFilter, ha, has]
    rfl

theorem exceptMapList_all_ok {α β : Type} (f : α → Except PyError β) :
    ∀ (xs : List α), (∀ x ∈ xs, isErr (f x) = false) →
      exceptMapList f xs = Except.ok (okList f xs) := by
  intro xs
  induction xs with
  | nil => intro _; rfl
  | cons a as ih =>
    intro h
    obtain ⟨b, hb⟩ := (isErr_eq_false_iff (f a)).mp (h a (List.mem_cons_self a as))
    have has := ih (fun x hx => h x (List.mem_cons_of_mem a hx))
    have hok : okList f (a :: as) = b :: okList f as := by
      simp only [okList, List.filterMap_cons, hb, exOpt]
    rw [hok]
    simp only [exceptMapList, hb, has]

theorem okList_length {α β : Type} (f : α → Except PyError β) :
    ∀ (xs : List α), (∀ x ∈ xs, isErr (f x) = false) →
      (okList f xs).length = xs.length := by
  intro xs
  induction xs with
  | nil => intro _; rfl
  | cons a as ih =>
    intro h
    obtain ⟨b, hb⟩ := (isErr_eq_false_iff (f a)).mp (h a (List.mem_cons_self a as))
    have has := ih (fun x hx => h x (List.mem_cons_of_mem a hx))
    have hok : okList f (a :: as) = b :: okList f as := by
      simp only [okList, List.filterMap_cons, hb, exOpt]
    rw [hok, List.length_cons, has, List.length_cons]

theorem okList_get {α β : Type} (f : α → Except PyError β) :
    ∀ (xs : List α), (∀ x ∈ xs, isErr (f x) = false) →
      ∀ (i : ℕ) (hi : i < xs.length) (hi' : i < (okList f xs).length),
        f (xs.get ⟨i, hi⟩) = Except.ok ((okList f xs).get ⟨i, hi'⟩) := by
  intro xs
  induction xs with
  | nil => intro _ i hi; exact absurd hi (by simp)
  | cons a as ih =>
    intro h i hi hi'
    obtain ⟨b, hb⟩ := (isErr_eq_false_iff (f a)).mp (h a (List.mem_cons_self a as))
    have hok : okList f (a :: as) = b :: okList f as := by
      simp only [okList, List.filterMap_cons, hb, exOpt]
    cases i with
    | zero =>
      simp only [List.get]
      rw [hb]
      congr 1
      have : (okList f (a :: as)).get ⟨0, hi'⟩ = b := by
        rw [List.get_of_eq hok]
        rfl
      rw [this]
    | succ j =>
      have hj : j < as.length := by simpa using hi
      have hj' : j < (okList f as).length := by
        have := hi'
        rw [hok] at this
        simpa using this
      have := ih (fun x hx => h x (List.mem_cons_of_mem a hx)) j hj hj'
      simp only [List.get]
      rw [this]
      congr 1
      rw [List.get_of_eq hok]
      rfl

theorem exceptMapList_has_err {α β : Type} (f : α → Except PyError β) :
    ∀ (xs : List α), (∃ x ∈ xs, isErr (f x) = true) →
      isErr (exceptMapList f xs) = true := by
  intro xs
  induction xs with
  | nil => rintro ⟨x, hx, _⟩; cases hx
  | cons a as ih =>
    rintro ⟨x, hx, hfx⟩
    cases hfa : f a with
    | error e => simp only [exceptMapList, hfa, isErr]
    | ok b =>
      rcases List.mem_cons.mp hx with rfl | hx'
      · rw [hfa] at hfx; simp [isErr] at hfx
      · have := ih ⟨x, hx', hfx⟩
        cases hml : exceptMapList f as with
        | error e => simp only [exceptMapList, hfa, hml, isErr]
        | ok bs => rw [hml] at this; simp [isErr] at this

theorem writeRows_all_ok :
    ∀ (ts : List TrailItem), (∀ t ∈ ts, isErr t.csvRow = false) →
      writeRows ts = (okList TrailItem.csvRow ts, none) := by
  intro ts
  induction ts with
  | nil => intro _; rfl
  | cons a as ih =>
    intro h
    obtain ⟨r, hr⟩ := (isErr_eq_false_iff a.csvRow).mp (h a (List.mem_cons_self a as))
    have has := ih (fun t ht => h t (List.mem_cons_of_mem a ht))
    simp only [writeRows, hr, has, okList, List.filterMap_cons]
    rfl

theorem if_class_ok_true (e : TrailItem → Except PyError Bool) (x : TrailItem)
    (h : (if x.class_ == "trail" then e x else Except.ok false) = Except.ok true) :
    (x.class_ == "trail") = true := by
  by_cases hc : (x.class_ == "trail") = true
  · exact hc
  · rw [if_neg hc] at h
    injection h with h'
    cases h'

theorem multitrailP_true_class (y : TrailItem) (h : multitrailP y = Except.ok true) :
    (y.class_ == "trail") = true := by
  by_cases hc : (y.class_ == "trail") = true
  · exact hc
  · simp [multitrailP, hc] at h

theorem ridingP_true_class (y : TrailItem) (h : ridingP y = Except.ok true) :
    (y.class_ == "trail") = true := by
  by_cases hc : (y.class_ == "trail") = true
  · exact hc
  · simp [ridingP, hc] at h

theorem bicycleP_true_class (y : TrailItem) (h : bicycleP y = Except.ok true) :
    (y.class_ == "trail") = true := by
  by_cases hc : (y.class_ == "trail") = true
  · exact hc
  · simp [bicycleP, hc] at h

theorem hikingP_true_class (y : TrailItem) (h : hikingP y = Except.ok true) :
    (y.class_ == "trail") = true := by
  by_cases hc : (y.class_ == "trail") = true
  · exact hc
  · simp [hikingP, hc] at h

theorem runningP_true_class (y : TrailItem) (h : runningP y = Except.ok true) :
    (y.class_ == "trail") = true := by
  by_cases hc : (y.class_ == "trail") = true
  · exact hc
  · simp [runningP, hc] at h

theorem withActivityP_true_class (y : TrailItem)
    (h : withActivityP y = Except.ok true) : (y.class_ == "trail") = true := by
  by_cases hc : (y.class_ == "trail") = true
  · exact hc
  · simp [withActivityP, hc] at h

theorem withoutActivityP_true_class (y : TrailItem)
    (h : withoutActivityP y = Except.ok true) : (y.class_ == "trail") = true := by
  by_cases hc : (y.class_ == "trail") = true
  · exact hc
  · simp [withoutActivityP, hc] at h

theorem unsupportedP_true_class (y : TrailItem)
    (h : unsupportedP y = Except.ok true) : (y.class_ == "trail") = true := by
  by_cases hc : (y.class_ == "trail") = true
  · exact hc
  · simp [unsupportedP, hc] at h

/-- C1: for every `TrailItem` whose `content` is non-empty (truthy),
`has_bike_activity` returns `true` regardless of `activity_key`: the
literal `"bicycle"` short-circuits the `or`, so the substring check never
runs. -/
theorem has_bike_activity_always_true (t : TrailItem)
    (_h : t.content.truthy = true) :
    t.has_bike_activity = Except.ok true := rfl

theorem has_bike_activity_always_true_witness :
    itemHike.content.truthy = true ∧ itemHike.has_bike_activity = Except.ok true :=
  ⟨rfl, has_bike_activity_always_true itemHike rfl⟩

/-- C3: accessing `activity` when `content` is absent or empty (falsy)
raises the `ValueError "no self.content"`, whereas a present non-empty
`content` mapping that merely lacks the `"activity"` key yields the empty
mapping without raising. -/
theorem activity_error_asymmetry (t : TrailItem) :
    (t.content.truthy = false →
      t.activity = Except.error (PyError.valueError "no self.content")) ∧
    (∀ fs, t.content = JValue.obj fs → t.content.truthy = true →
      jLookup fs "activity" = none → t.activity = Except.ok (JValue.obj [])) := by
  constructor
  · intro h
    simp [TrailItem.activity, h]
  · intro fs hfs ht hlk
    rw [hfs] at ht
    simp only [JValue.truthy, Bool.not_eq_true'] at ht
    simp [TrailItem.activity, hfs, JValue.truthy, ht, JValue.getD, hlk]

theorem activity_error_asymmetry_witness :
    itemNoContent.activity = Except.error (PyError.valueError "no self.content") ∧
    itemPlain.activity = Except.ok (JValue.obj []) :=
  ⟨(activity_error_asymmetry itemNoContent).1 rfl,
   (activity_error_asymmetry itemPlain).2
     [("title", JValue.str "Loop B, with comma")] rfl rfl rfl⟩

/-- C10: when `activity` evaluates to a non-empty mapping that lacks the
`"key"` field, `activity_key` returns the empty string (the `.get`
default) rather than failing. -/
theorem activity_key_defaults_empty (t : TrailItem) (afs : List (String × JValue))
    (h1 : t.activity = Except.ok (JValue.obj afs)) (h2 : afs.isEmpty = false)
    (h3 : jLookup afs "key" = none) :
    t.activity_key = Except.ok (JValue.str "") := by
  simp [TrailItem.activity_key, h1, JValue.truthy, h2, JValue.getD, h3]

theorem activity_key_defaults_empty_witness :
    itemKeyless.activity = Except.ok (JValue.obj [("value", JValue.str "DH")]) ∧
    itemKeyless.activity_key = Except.ok (JValue.str "") :=
  ⟨rfl, activity_key_defaults_empty itemKeyless [("value", JValue.str "DH")] rfl rfl rfl⟩

/-- C2 is false as stated: on a trail whose `properties` mapping lacks
`trailDistanceMeter`, `length` raises `KeyError` (the code subscripts
with `[]`) instead of returning 0; and on a negative distance the code
truncates toward zero (`int(float(.))`), not toward minus infinity, so
it disagrees with `floor`. -/
theorem length_semantics_counterexample :
    itemNoDist.length = Except.error (PyError.keyError "trailDistanceMeter") ∧
    itemNoDist.length ≠ Except.ok 0 ∧
    itemNegDist.length = Except.ok (-1) ∧
    Rat.floor (mkRat (-3) 2) = -2 ∧ ((-1 : ℤ) ≠ -2) := by
  refine ⟨rfl, ?_, rfl, by decide, by decide⟩
  intro h
  rw [show itemNoDist.length = Except.error (PyError.keyError "trailDistanceMeter")
    from rfl] at h
  exact Except.noConfusion h

/-- C2 (amended): with `properties` a mapping, `length` and
`length_in_km` raise `KeyError` when `trailDistanceMeter` is absent,
return 0 when it is present but falsy (zero or null), and otherwise (for
a number q) return q truncated toward zero (which equals `floor q` for
nonnegative q) resp. `round(q / 1000, 1)`. -/
theorem length_length_in_km_semantics (t : TrailItem) (fs : List (String × JValue))
    (hp : t.properties = JValue.obj fs) :
    (jLookup fs "trailDistanceMeter" = none →
      t.length = Except.error (PyError.keyError "trailDistanceMeter") ∧
      t.length_in_km = Except.error (PyError.keyError "trailDistanceMeter")) ∧
    (∀ v, jLookup fs "trailDistanceMeter" = some v → v.truthy = false →
      t.length = Except.ok 0 ∧ t.length_in_km = Except.ok 0) ∧
    (∀ q : ℚ, jLookup fs "trailDistanceMeter" = some (JValue.num q) → q ≠ 0 →
      t.length = Except.ok (ratTrunc q) ∧
      t.length_in_km = Except.ok (pyRound1 (q / 1000)) ∧
      (0 ≤ q → ratTrunc q = Rat.floor q)) := by
  refine ⟨?_, ?_, ?_⟩
  · intro h
    constructor <;> simp [TrailItem.length, TrailItem.length_in_km, hp, JValue.sub, h]
  · intro v hv htr
    constructor <;> simp [TrailItem.length, TrailItem.length_in_km, hp, JValue.sub, hv, htr]
  · intro q hq hq0
    have htr : (JValue.num q).truthy = true := by simp [JValue.truthy, hq0]
    refine ⟨?_, ?_, ?_⟩
    · simp [TrailItem.length, hp, JValue.sub, hq, htr, pyFloat]
    · simp [TrailItem.length_in_km, hp, JValue.sub, hq, htr, pyFloat]
    · intro hq1
      simp [ratTrunc, hq1]

theorem length_length_in_km_semantics_witness :
    itemNoDist.length = Except.error (PyError.keyError "trailDistanceMeter") ∧
    itemPlain.length = Except.ok 0 ∧ itemPlain.length_in_km = Except.ok 0 ∧
    itemHike.length = Except.ok 3500 ∧ itemHike.length_in_km = Except.ok (7/2) := by
  have h1 := (length_length_in_km_semantics itemNoDist [] rfl).1 rfl
  have h2 := (length_length_in_km_semantics itemPlain
    [("isMultiTrail", JValue.bool false), ("trailDistanceMeter", JValue.num 0),
     ("trailNumber", JValue.str "12")] rfl).2.1 (JValue.num 0) rfl rfl
  have h3 := (length_length_in_km_semantics itemHike
    [("isMultiTrail", JValue.bool true), ("trailDistanceMeter", JValue.num 3500)] rfl).2.2
    3500 rfl (by norm_num)
  refine ⟨h1.1, h2.1, h2.2, ?_, ?_⟩
  · rw [h3.1]
    rfl
  · rw [h3.2.1]
    have hd : (3500 : ℚ) / 1000 = 7 / 2 := by norm_num
    rw [hd]
    congr 1
    have h35 : ((7 : ℚ) / 2) * 10 = 35 := by norm_num
    have hfl : Rat.floor (35 : ℚ) = 35 := by decide
    have hr : roundHalfEven ((7 : ℚ) / 2 * 10) = 35 := by
      simp only [roundHalfEven, h35, hfl]
      norm_num
    simp only [pyRound1, hr]
    norm_num

/-- C4: if the raw `items` array holds any element whose `TrailItem`
construction fails, `parse_items` fails (the assignment to `items` never
runs, so the previous list is kept and no partial list is retained); if
every element constructs, `items` becomes exactly one `TrailItem` per
raw element in source order. -/
theorem parse_items_all_or_nothing (d : AreTrailsData) (xs : List JValue)
    (hd : d.data.sub "items" = Except.ok (JValue.arr xs)) :
    ((∃ v ∈ xs, isErr (TrailItem.construct v) = true) →
      isErr d.parse_items = true) ∧
    ((∀ v ∈ xs, isErr (TrailItem.construct v) = false) →
      d.parse_items = Except.ok { d with items := okList TrailItem.construct xs } ∧
      (okList TrailItem.construct xs).length = xs.length ∧
      ∀ (i : ℕ) (hi : i < xs.length) (hi' : i < (okList TrailItem.construct xs).length),
        TrailItem.construct (xs.get ⟨i, hi⟩) =
          Except.ok ((okList TrailItem.construct xs).get ⟨i, hi'⟩)) := by
  constructor
  · intro hex
    have herr := exceptMapList_has_err TrailItem.construct xs hex
    simp only [AreTrailsData.parse_items, hd]
    cases hml : exceptMapList TrailItem.construct xs with
    | error e => simp [isErr]
    | ok ts => rw [hml] at herr; simp [isErr] at herr
  · intro hall
    have hml := exceptMapList_all_ok TrailItem.construct xs hall
    refine ⟨?_, okList_length TrailItem.construct xs hall,
      okList_get TrailItem.construct xs hall⟩
    simp only [AreTrailsData.parse_items, hd, hml]

theorem parse_items_all_or_nothing_witness :
    isErr badParseData.parse_items = true ∧
    goodParseData.parse_items = Except.ok
      { items := [{ id := "7", objectClass := "trail",
                    content := JValue.obj [("title", JValue.str "T")],
                    properties := JValue.obj [], networkId := "n" }],
        data := JValue.obj [("items", JValue.arr [rawGoodItem])] } := by
  constructor
  · exact (parse_items_all_or_nothing badParseData [rawGoodItem, JValue.obj []] rfl).1
      ⟨JValue.obj [], List.mem_cons_of_mem _ (List.mem_cons_self _ _), rfl⟩
  · have hall : ∀ v ∈ [rawGoodItem], isErr (TrailItem.construct v) = false := by
      intro v hv
      have h2 := List.mem_singleton.mp hv
      subst h2
      rfl
    exact ((parse_items_all_or_nothing goodParseData [rawGoodItem] rfl).2 hall).1

/-- C5: when every trail-classed item has a non-empty content mapping,
`trails_with_activity` and `trails_without_activity` both evaluate
without raising and partition `trails` exactly: each member of `trails`
belongs to exactly one of the two views and nothing outside `trails`
belongs to either. -/
theorem activity_views_partition (d : AreTrailsData)
    (h : ∀ item ∈ d.items, item.class_ = "trail" →
      ∃ fs, item.content = JValue.obj fs ∧ fs.isEmpty = false) :
    isErr d.trails_with_activity = false ∧
    isErr d.trails_without_activity = false ∧
    ∀ A B, d.trails_with_activity = Except.ok A →
      d.trails_without_activity = Except.ok B →
      ∀ x, ((x ∈ A ∨ x ∈ B) ↔ x ∈ d.trails) ∧ (x ∈ A → x ∉ B) := by
  have hact : ∀ x ∈ d.items, (x.class_ == "trail") = true →
      ∃ a, x.activity = Except.ok a := by
    intro x hx hc
    obtain ⟨fs, hfs, hne⟩ := h x hx (by simpa using hc)
    refine ⟨(jLookup fs "activity").getD (JValue.obj []), ?_⟩
    simp [TrailItem.activity, hfs, JValue.truthy, hne, JValue.getD]
  have htotW : ∀ x ∈ d.items, ∃ b, withActivityP x = Except.ok b := by
    intro x hx
    by_cases hc : (x.class_ == "trail") = true
    · obtain ⟨a, ha⟩ := hact x hx hc
      exact ⟨!isEmptyDict a, by simp [withActivityP, hc, ha, Except.map]⟩
    · exact ⟨false, by simp [withActivityP, hc]⟩
  have htotWo : ∀ x ∈ d.items, ∃ b, withoutActivityP x = Except.ok b := by
    intro x hx
    by_cases hc : (x.class_ == "trail") = true
    · obtain ⟨a, ha⟩ := hact x hx hc
      exact ⟨isEmptyDict a, by simp [withoutActivityP, hc, ha, Except.map]⟩
    · exact ⟨false, by simp [withoutActivityP, hc]⟩
  obtain ⟨A0, hA0, hmemA⟩ := exceptFilter_total withActivityP d.items htotW
  obtain ⟨B0, hB0, hmemB⟩ := exceptFilter_total withoutActivityP d.items htotWo
  refine ⟨by simp [AreTrailsData.trails_with_activity, hA0, isErr],
          by simp [AreTrailsData.trails_without_activity, hB0, isErr], ?_⟩
  intro A B hA hB x
  have heqA : A = A0 := by
    rw [AreTrailsData.trails_with_activity] at hA
    rw [hA0] at hA
    injection hA with h'
    exact h'.symm
  have heqB : B = B0 := by
    rw [AreTrailsData.trails_without_activity] at hB
    rw [hB0] at hB
    injection hB with h'
    exact h'.symm
  subst heqA
  subst heqB
  constructor
  · constructor
    · rintro (hx | hx)
      · obtain ⟨h1, h2⟩ := (hmemA x).mp hx
        exact List.mem_filter.mpr ⟨h1, withActivityP_true_class x h2⟩
      · obtain ⟨h1, h2⟩ := (hmemB x).mp hx
        exact List.mem_filter.mpr ⟨h1, withoutActivityP_true_class x h2⟩
    · intro hx
      obtain ⟨h1, hc⟩ := List.mem_filter.mp hx
      obtain ⟨a, ha⟩ := hact x h1 hc
      cases hed : isEmptyDict a with
      | false =>
        exact Or.inl ((hmemA x).mpr ⟨h1, by
          simp [withActivityP, hc, ha, Except.map, hed]⟩)
      | true =>
        exact Or.inr ((hmemB x).mpr ⟨h1, by
          simp [withoutActivityP, hc, ha, Except.map, hed]⟩)
  · intro hxA hxB
    obtain ⟨h1, h2⟩ := (hmemA x).mp hxA
    obtain ⟨h1', h2'⟩ := (hmemB x).mp hxB
    have hc := withActivityP_true_class x h2
    have h2m : Except.map (fun a => !isEmptyDict a) x.activity = Except.ok true := by
      simpa [withActivityP, hc] using h2
    have h2m' : Except.map isEmptyDict x.activity = Except.ok true := by
      simpa [withoutActivityP, hc] using h2'
    obtain ⟨a, ha, hfa⟩ := except_map_eq_ok _ _ _ h2m
    obtain ⟨a', ha', hfa'⟩ := except_map_eq_ok _ _ _ h2m'
    rw [ha] at ha'
    injection ha' with he
    subst he
    rw [hfa'] at hfa
    simp at hfa

theorem activity_views_partition_witness :
    ((itemHike ∈ [itemHike] ∨ itemHike ∈ [itemPlain]) ↔ itemHike ∈ demoData.trails) ∧
    (itemHike ∈ [itemHike] → itemHike ∉ [itemPlain]) :=
  (activity_views_partition demoData (by
    intro item hitem hcl
    have hlist : demoData.items = [itemHike, itemOther, itemPlain] := rfl
    rw [hlist] at hitem
    rcases List.mem_cons.mp hitem with h1 | h1
    · subst h1
      exact ⟨_, rfl, rfl⟩
    rcases List.mem_cons.mp h1 with h2 | h2
    · subst h2
      exact absurd hcl (by decide)
    · have h3 := List.mem_singleton.mp h2
      subst h3
      exact ⟨_, rfl, rfl⟩)).2.2 [itemHike] [itemPlain] rfl rfl itemHike

/-- C6 is false as stated: `itemStrActivity` is a trail whose content is
a non-empty mapping, yet `trails_with_unsupported_activity` on the
dataset holding it raises `AttributeError` (from `activity.get` on the
string `"x"`) instead of being the empty list. -/
theorem unsupported_activity_counterexample :
    itemStrActivity.content = JValue.obj [("activity", JValue.str "x")] ∧
    (JValue.obj [("activity", JValue.str "x")]).truthy = true ∧
    itemStrActivity.class_ = "trail" ∧
    strActivityData.items = [itemStrActivity] ∧
    strActivityData.trails_with_unsupported_activity =
      Except.error PyError.attributeError ∧
    Except.error PyError.attributeError ≠
      (Except.ok [] : Except PyError (List TrailItem)) := by
  refine ⟨rfl, rfl, rfl, rfl, rfl, ?_⟩
  intro hcon
  exact Except.noConfusion hcon

/-- C6 (amended): for data in which every trail-classed item's
`activity_key` evaluates to a string — in particular when each trail's
content is a non-empty mapping whose optional `activity` entry is
falsy or a mapping whose optional `key` entry is a string —
`trails_with_unsupported_activity` is the empty list, because
`has_bike_activity` is unconditionally true. -/
theorem unsupported_activity_empty (d : AreTrailsData)
    (h : ∀ item ∈ d.items, item.class_ = "trail" →
      ∃ s, item.activity_key = Except.ok (JValue.str s)) :
    d.trails_with_unsupported_activity = Except.ok [] := by
  apply exceptFilter_all_false
  intro x hx
  by_cases hc : (x.class_ == "trail") = true
  · obtain ⟨s, hs⟩ := h x hx (by simpa using hc)
    have hbike : x.has_bike_activity = Except.ok true := rfl
    have hhike : x.has_hike_activity = Except.ok (pyInStr "hiking" s) := by
      simp [TrailItem.has_hike_activity, hs]
    have hride : x.has_riding_activity = Except.ok (pyInStr "riding" s) := by
      simp [TrailItem.has_riding_activity, hs]
    simp only [unsupportedP, hc, if_true, hhike, hride, hbike]
    cases hh : pyInStr "hiking" s with
    | true => simp [orE, Except.map]
    | false =>
      cases hr : pyInStr "riding" s <;> simp [orE, Except.map]
  · simp [unsupportedP, hc]

theorem unsupported_activity_empty_witness :
    demoData.trails_with_unsupported_activity = Except.ok [] :=
  unsupported_activity_empty demoData (by
    intro item hitem hcl
    have hlist : demoData.items = [itemHike, itemOther, itemPlain] := rfl
    rw [hlist] at hitem
    rcases List.mem_cons.mp hitem with h1 | h1
    · subst h1
      exact ⟨"hiking-easy", rfl⟩
    rcases List.mem_cons.mp h1 with h2 | h2
    · subst h2
      exact absurd hcl (by decide)
    · have h3 := List.mem_singleton.mp h2
      subst h3
      exact ⟨"", rfl⟩)

/-- C7: an item whose class is not `"trail"` appears in none of the
filtered views: `trails`, `multitrails`, `riding_trails`,
`bicycle_trails`, `hiking_trails`, `running_trails`,
`trails_with_activity`, `trails_without_activity`,
`trails_with_unsupported_activity`. -/
theorem non_trail_excluded_from_views (d : AreTrailsData) (x : TrailItem)
    (hx : x.class_ ≠ "trail") :
    x ∉ d.trails ∧
    (∀ l, d.multitrails = Except.ok l → x ∉ l) ∧
    (∀ l, d.riding_trails = Except.ok l → x ∉ l) ∧
    (∀ l, d.bicycle_trails = Except.ok l → x ∉ l) ∧
    (∀ l, d.hiking_trails = Except.ok l → x ∉ l) ∧
    (∀ l, d.running_trails = Except.ok l → x ∉ l) ∧
    (∀ l, d.trails_with_activity = Except.ok l → x ∉ l) ∧
    (∀ l, d.trails_without_activity = Except.ok l → x ∉ l) ∧
    (∀ l, d.trails_with_unsupported_activity = Except.ok l → x ∉ l) := by
  have hbeq : (x.class_ == "trail") = false :=
    Bool.eq_false_iff.mpr (fun hbt => hx (eq_of_beq hbt))
  have main : ∀ (p : TrailItem → Except PyError Bool),
      (∀ y, p y = Except.ok true → (y.class_ == "trail") = true) →
      ∀ l, exceptFilter p d.items = Except.ok l → x ∉ l := by
    intro p hp l hl hmem
    obtain ⟨_, h2⟩ := exceptFilter_mem p d.items l hl x hmem
    rw [hp x h2] at hbeq
    exact Bool.noConfusion hbeq
  refine ⟨?_, main multitrailP multitrailP_true_class,
    main ridingP ridingP_true_class, main bicycleP bicycleP_true_class,
    main hikingP hikingP_true_class, main runningP runningP_true_class,
    main withActivityP withActivityP_true_class,
    main withoutActivityP withoutActivityP_true_class,
    main unsupportedP unsupportedP_true_class⟩
  intro hmem
  have h2 := (List.mem_filter.mp hmem).2
  rw [h2] at hbeq
  exact Bool.noConfusion hbeq

theorem non_trail_excluded_from_views_witness :
    itemOther.class_ ≠ "trail" ∧ itemOther ∉ demoData.trails :=
  ⟨by decide, (non_trail_excluded_from_views demoData itemOther (by decide)).1⟩

/-- C9: every filtered view is an order-preserving subsequence of
`items`, and every view other than `trails` is an order-preserving
subsequence of `trails`. -/
theorem views_are_sublists (d : AreTrailsData) :
    d.trails.Sublist d.items ∧
    (∀ l, d.multitrails = Except.ok l → l.Sublist d.items ∧ l.Sublist d.trails) ∧
    (∀ l, d.riding_trails = Except.ok l → l.Sublist d.items ∧ l.Sublist d.trails) ∧
    (∀ l, d.bicycle_trails = Except.ok l → l.Sublist d.items ∧ l.Sublist d.trails) ∧
    (∀ l, d.hiking_trails = Except.ok l → l.Sublist d.items ∧ l.Sublist d.trails) ∧
    (∀ l, d.running_trails = Except.ok l → l.Sublist d.items ∧ l.Sublist d.trails) ∧
    (∀ l, d.trails_with_activity = Except.ok l →
      l.Sublist d.items ∧ l.Sublist d.trails) ∧
    (∀ l, d.trails_without_activity = Except.ok l →
      l.Sublist d.items ∧ l.Sublist d.trails) ∧
    (∀ l, d.trails_with_unsupported_activity = Except.ok l →
      l.Sublist d.items ∧ l.Sublist d.trails) := by
  have base : ∀ (p : TrailItem → Except PyError Bool),
      (∀ y, p y = Except.ok true → (y.class_ == "trail") = true) →
      ∀ l, exceptFilter p d.items = Except.ok l →
        l.Sublist d.items ∧ l.Sublist d.trails := by
    intro p hp l hl
    exact ⟨exceptFilter_sublist p d.items l hl,
      exceptFilter_sublist_filter p (fun y => y.class_ == "trail") hp d.items l hl⟩
  exact ⟨List.filter_sublist d.items,
    base multitrailP multitrailP_true_class,
    base ridingP ridingP_true_class, base bicycleP bicycleP_true_class,
    base hikingP hikingP_true_class, base runningP runningP_true_class,
    base withActivityP withActivityP_true_class,
    base withoutActivityP withoutActivityP_true_class,
    base unsupportedP unsupportedP_true_class⟩

theorem views_are_sublists_witness :
    [itemHike].Sublist demoData.items ∧ [itemHike].Sublist demoData.trails :=
  (views_are_sublists demoData).2.1 [itemHike] rfl

/-- C8: when every trail has the fields the row accessors need (its
`csvRow` evaluates without raising), `export_trails_to_csv` writes the
fixed header row followed by exactly one row per item of `trails`, in
source order, for 1 + `trails.length` rows in total. -/
theorem export_csv_structure (d : AreTrailsData)
    (h : ∀ t ∈ d.trails, isErr t.csvRow = false) :
    d.export_trails_to_csv = (headerRow :: okList TrailItem.csvRow d.trails, none) ∧
    headerRow = ["title", "number", "activity_key", "multitrail", "length",
      "url", "gpx"] ∧
    (headerRow :: okList TrailItem.csvRow d.trails).length = 1 + d.trails.length ∧
    ∀ (i : ℕ) (hi : i < d.trails.length)
      (hi' : i < (okList TrailItem.csvRow d.trails).length),
      TrailItem.csvRow (d.trails.get ⟨i, hi⟩) =
        Except.ok ((okList TrailItem.csvRow d.trails).get ⟨i, hi'⟩) := by
  have hw := writeRows_all_ok d.trails h
  refine ⟨?_, rfl, ?_, okList_get TrailItem.csvRow d.trails h⟩
  · simp only [AreTrailsData.export_trails_to_csv, hw]
  · rw [List.length_cons, okList_length TrailItem.csvRow d.trails h]
    omega

theorem export_csv_structure_witness :
    demoData.export_trails_to_csv =
      (headerRow :: okList TrailItem.csvRow demoData.trails, none) ∧
    (headerRow :: okList TrailItem.csvRow demoData.trails).length =
      1 + demoData.trails.length := by
  have hall : ∀ t ∈ demoData.trails, isErr t.csvRow = false := by
    intro t ht
    have hlist : demoData.trails = [itemHike, itemPlain] := rfl
    rw [hlist] at ht
    rcases List.mem_cons.mp ht with h1 | h1
    · subst h1
      rfl
    · have h2 := List.mem_singleton.mp h1
      subst h2
      rfl
  exact ⟨(export_csv_structure demoData hall).1,
    (export_csv_structure demoData hall).2.2.1⟩
